import Mathlib

/-!
Shallow embedding of `src/gv_daemon.py` (Darkstrumn/gamevoice): a poll daemon
that reads a one-byte status mask from a SideWinder Game Voice hidraw node,
decodes bit edges, dispatches bound actions (key combos / shell commands) and
emits notifications.  Pure functions of the source are translated directly;
the stateful main loop is modelled as explicit state passing over an
environment describing the outcomes of the external calls.
-/

namespace GV

/-! ### Bit constants and names (gv_daemon.py lines 26-46) -/

def BIT_ALL : Nat := 0x01
def BIT_TEAM : Nat := 0x02
def BIT_CH1 : Nat := 0x04
def BIT_CH2 : Nat := 0x08
def BIT_CH3 : Nat := 0x10
def BIT_CH4 : Nat := 0x20
def BIT_CMD : Nat := 0x40
def BIT_MUTE : Nat := 0x80

/-- The BIT_NAMES dict, as an association list in Python insertion order. -/
def BIT_NAMES_LIST : List (Nat × String) :=
  [(BIT_ALL, "all"), (BIT_TEAM, "team"), (BIT_CH1, "chan1"), (BIT_CH2, "chan2"),
   (BIT_CH3, "chan3"), (BIT_CH4, "chan4"), (BIT_CMD, "command"), (BIT_MUTE, "mute")]

/-- Dict access BIT_NAMES[bit]; the daemon only looks up defined bits, so the
default "" is never produced on the paths modelled here. -/
def BIT_NAMES (bit : Nat) : String := (BIT_NAMES_LIST.lookup bit).getD ""

def PRINT_ORDER : List Nat :=
  [BIT_MUTE, BIT_CMD, BIT_ALL, BIT_TEAM, BIT_CH1, BIT_CH2, BIT_CH3, BIT_CH4]

/-! ### decode (gv_daemon.py lines 82-122) -/

/-- decode_edges: for each bit of PRINT_ORDER set in prev XOR curr, append
(f"{base}_{edge}", bit, edge) where edge is "on" iff the bit is set in curr.
The Python loop appending to a list is rendered as filter-then-map. -/
def decode_edges (prev_mask curr_mask : Nat) : List (String × Nat × String) :=
  let changed := prev_mask ^^^ curr_mask
  (PRINT_ORDER.filter (fun bit => changed &&& bit != 0)).map (fun bit =>
    let base := BIT_NAMES bit
    let edge := if curr_mask &&& bit != 0 then "on" else "off"
    (base ++ "_" ++ edge, bit, edge))

/-- Lowercase hex digit, as Python %x formatting produces. -/
def hexChar (n : Nat) : Char :=
  if n < 10 then Char.ofNat (48 + n) else Char.ofNat (87 + n)

/-- Python f"{n:02x}" for byte values (the masks handled here are < 256). -/
def pyhex2 (n : Nat) : String := String.mk [hexChar ((n / 16) % 16), hexChar (n % 16)]

/-- decode_edges0: iterates BIT_NAMES.items() in dict insertion order,
appending (f"{base}_{edge}", edge) per changed bit, then appends the
aggregate (f"mask_{curr:02x}", "state") entry.  (The stray print() is a
side effect with no bearing on the returned value.) -/
def decode_edges0 (prev_mask curr_mask : Nat) : List (String × String) :=
  let changed := prev_mask ^^^ curr_mask
  ((BIT_NAMES_LIST.filter (fun q => changed &&& q.1 != 0)).map (fun q =>
    let edge := if curr_mask &&& q.1 != 0 then "on" else "off"
    (q.2 ++ "_" ++ edge, edge)))
  ++ [("mask_" ++ pyhex2 curr_mask, "state")]

/-- active_set: names of set bits, in PRINT_ORDER. -/
def active_set (mask : Nat) : List String :=
  (PRINT_ORDER.filter (fun bit => mask &&& bit != 0)).map BIT_NAMES

/-! ### Key injection (gv_daemon.py lines 49, 69-79)

KEYCODES is built by introspecting the external evdev module, so it is kept
abstract: a table `KC : String → Option Nat`, where `none` models the KeyError
that Python raises on `KEYCODES[k]` for an unknown key name. -/

/-- One event sent to the virtual uinput device. -/
inductive UIEvent
  | write (code : Nat) (value : Nat)
  | syn
deriving DecidableEq

/-- The `ui.write(E.EV_KEY, KEYCODES[k], value)` loop body over a key list;
`Except.error k` models the KeyError escaping on an unknown key name. -/
def writeKeys (KC : String → Option Nat) (value : Nat) :
    List String → Except String (List UIEvent)
  | [] => Except.ok []
  | k :: rest =>
    match KC k with
    | none => Except.error k
    | some code =>
      match writeKeys KC value rest with
      | Except.error e => Except.error e
      | Except.ok tail => Except.ok (UIEvent.write code value :: tail)

/-- press_combo: press every key (value 1) in order, release every key
(value 0) in reversed order, then ui.syn(). -/
def press_combo (KC : String → Option Nat) (keys : List String) :
    Except String (List UIEvent) :=
  match writeKeys KC 1 keys with
  | Except.error e => Except.error e
  | Except.ok downs =>
    match writeKeys KC 0 keys.reverse with
    | Except.error e => Except.error e
    | Except.ok ups => Except.ok (downs ++ ups ++ [UIEvent.syn])

/-- An action-spec dict from gvmap.yaml, restricted to the keys the daemon
reads: "type", "keys", "cmd"; a missing key is `none`. -/
structure ActionSpec where
  type? : Option String
  keys : Option (List String)
  cmd : Option String
deriving DecidableEq

/-- Python truthiness of the spec dict at the `if spec:` dispatch guard:
an empty dict is falsy. -/
def truthy (spec : ActionSpec) : Bool :=
  spec.type?.isSome || spec.keys.isSome || spec.cmd.isSome

/-- What do_action did: injected key events, launched a detached shell
command, or fell through both branches doing nothing. -/
inductive ActionEffect
  | keyEvents (evs : List UIEvent)
  | shell (cmd : String)
  | noAction
deriving DecidableEq

/-- do_action: t = spec.get("type", "key"); "key" runs press_combo on
spec["keys"] (KeyError if the key is absent), "shell" launches spec["cmd"]
detached, any other t silently does nothing. -/
def do_action (KC : String → Option Nat) (spec : ActionSpec) :
    Except String ActionEffect :=
  let t := spec.type?.getD "key"
  if t = "key" then
    match spec.keys with
    | none => Except.error "keys"
    | some ks => (press_combo KC ks).map ActionEffect.keyEvents
  else if t = "shell" then
    match spec.cmd with
    | none => Except.error "cmd"
    | some c => Except.ok (ActionEffect.shell c)
  else Except.ok ActionEffect.noAction

/-! ### Configuration loading (gv_daemon.py lines 62-67) -/

/-- Coarse model of the yaml.safe_load result of the mapping file: either a
dict carrying the "bindings" key (whose value is the event-name -> spec
mapping), or anything else (a non-dict, or a dict without that key). -/
inductive MapFile
  | withBindings (b : List (String × ActionSpec))
  | noBindingsKey
deriving DecidableEq

/-- The binding table: event name -> ActionSpec (dict, as assoc list). -/
abbrev Bindings := List (String × ActionSpec)

/-- load_map: returns data["bindings"], or raises ValueError when the loaded
value is not a dict with the "bindings" key.  (The Python message quotes the
word bindings; quotes are omitted here.) -/
def load_map : MapFile → Except String Bindings
  | MapFile.withBindings b => Except.ok b
  | MapFile.noBindingsKey =>
      Except.error "Top-level bindings missing in mapping file."

/-! ### Main loop (gv_daemon.py lines 206-266) -/

/-- Observable per-iteration outputs of the loop body:
the INIT log line, one emit_to_nodered call per edge, one do_action call. -/
inductive LoopEvent
  | logInit (mask : Nat)
  | notify (event : String) (edge : String) (mask : Nat)
  | action (eff : ActionEffect)
deriving DecidableEq

/-- The for-loop over decode_edges output (lines 244-254): per edge, print,
emit_to_nodered (notify), then do_action when the binding lookup is truthy.
An exception from do_action aborts the loop (only BlockingIOError is caught
by the inner except), so later edges are not processed. -/
def processEdges (KC : String → Option Nat) (bindings : Bindings) (curr : Nat) :
    List (String × Nat × String) → List LoopEvent × Option String
  | [] => ([], none)
  | (ev_name, _bit, edge) :: rest =>
    let notif := LoopEvent.notify ev_name edge curr
    match bindings.lookup ev_name with
    | some spec =>
      if truthy spec then
        match do_action KC spec with
        | Except.error e => ([notif], some e)
        | Except.ok eff =>
          let r := processEdges KC bindings curr rest
          (notif :: LoopEvent.action eff :: r.1, r.2)
      else
        let r := processEdges KC bindings curr rest
        (notif :: r.1, r.2)
    | none =>
      let r := processEdges KC bindings curr rest
      (notif :: r.1, r.2)

/-- State after handling one successfully read byte (lines 232-256). -/
structure CycleResult where
  prev : Option Nat
  events : List LoopEvent
  err : Option String
deriving DecidableEq

/-- One loop body on byte `curr`: first read is baseline only (INIT log,
prev recorded); an unchanged byte is ignored; otherwise edges are processed
and prev is updated — unless an exception escapes, in which case the
`prev = curr` assignment on line 256 is never reached. -/
def cycle (KC : String → Option Nat) (bindings : Bindings)
    (prev : Option Nat) (curr : Nat) : CycleResult :=
  match prev with
  | none => { prev := some curr, events := [LoopEvent.logInit curr], err := none }
  | some p =>
    if curr = p then { prev := some p, events := [], err := none }
    else
      let r := processEdges KC bindings curr (decode_edges p curr)
      match r.2 with
      | some e => { prev := some p, events := r.1, err := some e }
      | none => { prev := some curr, events := r.1, err := none }

/-- Outcome of one os.read attempt on the non-blocking fd. -/
inductive ReadResult
  | bytes (b : Nat)
  | empty
  | wouldBlock
deriving DecidableEq

/-- Accumulated run of the while-True loop over a finite schedule of read
outcomes, ending either in a propagating exception or (when the schedule is
exhausted) in the KeyboardInterrupt that stops the daemon. -/
structure LoopResult where
  prev : Option Nat
  events : List LoopEvent
  err : Option String
deriving DecidableEq

/-- The while-True loop (lines 227-260): empty reads and BlockingIOError are
no-ops; a read byte runs `cycle`; an escaping exception ends the loop. -/
def runLoop (KC : String → Option Nat) (bindings : Bindings) :
    Option Nat → List ReadResult → LoopResult
  | prev, [] => { prev := prev, events := [], err := none }
  | prev, ReadResult.empty :: rest => runLoop KC bindings prev rest
  | prev, ReadResult.wouldBlock :: rest => runLoop KC bindings prev rest
  | prev, ReadResult.bytes b :: rest =>
    let c := cycle KC bindings prev b
    match c.err with
    | some e => { prev := c.prev, events := c.events, err := some e }
    | none =>
      let r := runLoop KC bindings c.prev rest
      { prev := r.prev, events := c.events ++ r.events, err := r.err }

/-- How the process terminated: an explicit sys.exit / clean return, or an
uncaught Python exception (for which the interpreter exits with code 1). -/
inductive ExitOutcome
  | exited (code : Nat)
  | uncaught (err : String)
deriving DecidableEq

/-- The numeric process exit status of an outcome. -/
def exitCode : ExitOutcome → Nat
  | ExitOutcome.exited c => c
  | ExitOutcome.uncaught _ => 1

/-- The message of the NameError raised on line 209. -/
def NameErrorTrue : String := "NameError: name true is not defined"

/-- Line 209: `node = HIDRAW_OVERRIDE or find_hidraw_by_vidpid(VID_HEX,
PID_HEX,true)`.  When HIDRAW_OVERRIDE is truthy the right operand is never
evaluated; when it is falsy, Python evaluates the arguments and the bare
identifier `true` is unbound (the builtin is True), so a NameError is raised
before find_hidraw_by_vidpid is ever called. -/
def resolve_node (override : String) : Except String (Option String) :=
  if override != "" then Except.ok (some override)
  else Except.error NameErrorTrue

/-- Environment of one daemon run: the HIDRAW_OVERRIDE constant, the parsed
mapping file, the schedule of read outcomes before the interrupt arrives,
and the KEYCODES table. -/
structure Env where
  override : String
  mapfile : MapFile
  reads : List ReadResult
  KC : String → Option Nat

/-- Observable outcome of main(): exit status, whether the uinput handle and
the hidraw fd were opened/closed, whether the poll loop was entered, and the
loop's emitted events. -/
structure MainResult where
  exit : ExitOutcome
  uiOpened : Bool
  fdOpened : Bool
  uiClosed : Bool
  fdClosed : Bool
  polled : Bool
  events : List LoopEvent

/-- main() (lines 206-266): resolve the node (sys.exit(3) when falsy — dead
code, see resolve_node); open ui = UInput() and the hidraw fd (both modelled
as succeeding); load_map — its ValueError propagates before the try/finally
is entered, so neither handle is closed on that path; then the poll loop
under try/finally: KeyboardInterrupt yields a clean return (exit 0) and any
other escaping exception propagates, in both cases after the finally block
closes ui and fd. -/
def main_model (env : Env) : MainResult :=
  match resolve_node env.override with
  | Except.error e =>
    { exit := ExitOutcome.uncaught e, uiOpened := false, fdOpened := false,
      uiClosed := false, fdClosed := false, polled := false, events := [] }
  | Except.ok node =>
    if node.isNone then
      { exit := ExitOutcome.exited 3, uiOpened := false, fdOpened := false,
        uiClosed := false, fdClosed := false, polled := false, events := [] }
    else
      match load_map env.mapfile with
      | Except.error e =>
        { exit := ExitOutcome.uncaught e, uiOpened := true, fdOpened := true,
          uiClosed := false, fdClosed := false, polled := false, events := [] }
      | Except.ok bindings =>
        let r := runLoop env.KC bindings none env.reads
        match r.err with
        | some e =>
          { exit := ExitOutcome.uncaught e, uiOpened := true, fdOpened := true,
            uiClosed := true, fdClosed := true, polled := true, events := r.events }
        | none =>
          { exit := ExitOutcome.exited 0, uiOpened := true, fdOpened := true,
            uiClosed := true, fdClosed := true, polled := true, events := r.events }

/-! ### Concrete fixtures used by witnesses and counterexamples -/

/-- A well-formed key binding (ctrl+M), type field omitted as gvmap.yaml allows. -/
def specCtrlM : ActionSpec := { type? := none, keys := some ["KEY_LEFTCTRL", "KEY_M"], cmd := none }

/-- A binding whose key list names a key absent from KEYCODES. -/
def specBadKey : ActionSpec := { type? := none, keys := some ["KEY_BOGUS"], cmd := none }

/-- A binding whose type tag is neither "key" nor "shell". -/
def specWeird : ActionSpec := { type? := some "frobnicate", keys := none, cmd := none }

/-- A tiny concrete KEYCODES table (evdev codes: KEY_LEFTCTRL = 29, KEY_M = 50). -/
def KCdemo : String → Option Nat := fun k =>
  if k = "KEY_LEFTCTRL" then some 29 else if k = "KEY_M" then some 50 else none

/-- Run where the second read fires a binding whose key name is unknown. -/
def envBadKey : Env := { override := "/dev/hidraw0",
                         mapfile := MapFile.withBindings [("mute_on", specBadKey)],
                         reads := [ReadResult.bytes 0x00, ReadResult.bytes 0x80],
                         KC := fun _ => Option.none }

/-- Run where the second read fires a binding of unknown kind. -/
def envWeird : Env := { override := "/dev/hidraw0",
                        mapfile := MapFile.withBindings [("mute_on", specWeird)],
                        reads := [ReadResult.bytes 0x00, ReadResult.bytes 0x80],
                        KC := fun _ => Option.none }

/-- Run whose mapping file lacks the top-level bindings key. -/
def envNoKey : Env := { override := "/dev/hidraw0", mapfile := MapFile.noBindingsKey,
                        reads := [], KC := fun _ => Option.none }

/-- Run with HIDRAW_OVERRIDE unset, forcing the device-discovery branch. -/
def envNoOverride : Env := { override := "", mapfile := MapFile.withBindings [],
                             reads := [], KC := fun _ => Option.none }

/-- Run aborted by an invalid mapping file. -/
def envBadMap5 : Env := { override := "/dev/hidraw0", mapfile := MapFile.noBindingsKey,
                          reads := [], KC := fun _ => Option.none }

/-- Run interrupted cleanly after one empty poll. -/
def envInterrupt : Env := { override := "/dev/hidraw0", mapfile := MapFile.withBindings [],
                            reads := [ReadResult.wouldBlock], KC := fun _ => Option.none }

/-- Run that aborts in load_map after both handles are opened. -/
def envLeak : Env := { override := "/dev/hidraw0", mapfile := MapFile.noBindingsKey,
                       reads := [], KC := fun _ => Option.none }

/-- Run interrupted cleanly after an initial read and an empty poll. -/
def envClean : Env := { override := "/dev/hidraw0", mapfile := MapFile.withBindings [],
                        reads := [ReadResult.bytes 0x00, ReadResult.wouldBlock],
                        KC := fun _ => Option.none }

/-! ### Helper lemmas -/

/-- Projecting the middle component of the triples built by decode_edges
recovers the underlying bit list. -/
theorem map_proj_triple (l : List Nat) (f1 f2 : Nat → String) :
    (l.map (fun bit => (f1 bit, bit, f2 bit))).map
      (fun e : String × Nat × String => e.2.1) = l := by
  induction l with
  | nil => rfl
  | cons a t ih => simp only [List.map_cons, ih]

/-- The bits of the edges emitted by decode_edges are exactly the changed
bits of PRINT_ORDER, in PRINT_ORDER order. -/
theorem decode_edges_map_bits (p c : Nat) :
    (decode_edges p c).map (fun e => e.2.1)
      = PRINT_ORDER.filter (fun bit => (p ^^^ c) &&& bit != 0) := by
  rw [decode_edges]
  exact map_proj_triple _ _ _

/-- An unchanged mask yields no edges. -/
theorem decode_edges_self (c : Nat) : decode_edges c c = [] := by
  simp [decode_edges, Nat.xor_self, PRINT_ORDER]

/-- When every key of the list is known, writeKeys emits one write per key
in list order. -/
theorem writeKeys_ok (KC : String → Option Nat) (v : Nat) (keys : List String)
    (h : ∀ k ∈ keys, (KC k).isSome) :
    writeKeys KC v keys
      = Except.ok (keys.map (fun k => UIEvent.write ((KC k).getD 0) v)) := by
  induction keys with
  | nil => rfl
  | cons k rest ih =>
    have hk := h k (List.mem_cons_self k rest)
    obtain ⟨code, hc⟩ := Option.isSome_iff_exists.mp hk
    simp [writeKeys, hc, ih (fun x hx => h x (List.mem_cons_of_mem _ hx))]

/-- A run that gets past startup enters the poll loop under try/finally:
both handles end up closed, the loop events are surfaced, and the exit is
clean (0) or the loop's escaping exception. -/
theorem main_model_run (env : Env) (bindings : Bindings)
    (hov : env.override ≠ "") (hload : load_map env.mapfile = Except.ok bindings) :
    (main_model env).uiOpened = true ∧ (main_model env).fdOpened = true
    ∧ (main_model env).uiClosed = true ∧ (main_model env).fdClosed = true
    ∧ (main_model env).polled = true
    ∧ (main_model env).events = (runLoop env.KC bindings none env.reads).events
    ∧ (main_model env).exit
        = (match (runLoop env.KC bindings none env.reads).err with
           | some e => ExitOutcome.uncaught e
           | none => ExitOutcome.exited 0) := by
  have hbne : (env.override != "") = true := bne_iff_ne.mpr hov
  cases herr : (runLoop env.KC bindings none env.reads).err <;>
    simp [main_model, resolve_node, hbne, hload, herr]

/-! ### Claims -/

/-- Claim C1: for every pair of status-mask bytes (p, c), decode_edges emits
exactly one edge per defined bit on which p and c differ and nothing else
(in particular decode_edges c c = []), the direction is "on" iff the bit is
set in c, the event name is the bit name suffixed with the direction, and
the sequence follows PRINT_ORDER (mute, command, all, team, chan1..chan4)
rather than ascending bit value; for p = 0x00, c = 0x81 the result is
exactly mute_on then all_on. -/
theorem C1_decode_edges_characterization (p c : Nat) :
    decode_edges c c = []
    ∧ (decode_edges p c).map (fun e => e.2.1)
        = PRINT_ORDER.filter (fun bit => (p ^^^ c) &&& bit != 0)
    ∧ (∀ e ∈ decode_edges p c,
        e.2.1 ∈ PRINT_ORDER ∧ (p ^^^ c) &&& e.2.1 ≠ 0
        ∧ e.2.2 = (if c &&& e.2.1 != 0 then "on" else "off")
        ∧ e.1 = BIT_NAMES e.2.1 ++ "_" ++ e.2.2)
    ∧ (∀ bit, bit ∈ PRINT_ORDER → (p ^^^ c) &&& bit ≠ 0 →
        ((decode_edges p c).map (fun e => e.2.1)).count bit = 1)
    ∧ decode_edges 0x00 0x81
        = [("mute_on", BIT_MUTE, "on"), ("all_on", BIT_ALL, "on")] := by
  refine ⟨decode_edges_self c, decode_edges_map_bits p c, ?_, ?_, rfl⟩
  · intro e he
    rw [decode_edges] at he
    simp only [List.mem_map, List.mem_filter] at he
    obtain ⟨bit, ⟨hmem, hpred⟩, rfl⟩ := he
    refine ⟨hmem, ?_, rfl, rfl⟩
    simpa [bne_iff_ne] using hpred
  · intro bit hbit hch
    rw [decode_edges_map_bits]
    exact List.count_eq_one_of_mem (List.Nodup.filter _ (by decide))
      (List.mem_filter.mpr ⟨hbit, bne_iff_ne.mpr hch⟩)

/-- Claim C1 witness: the characterization evaluated at concrete masks. -/
theorem C1_witness :
    decode_edges 0x81 0x81 = []
    ∧ decode_edges 0x00 0x81 = [("mute_on", BIT_MUTE, "on"), ("all_on", BIT_ALL, "on")]
    ∧ ((decode_edges 0x00 0x81).map (fun e => e.2.1)).count BIT_MUTE = 1 :=
  ⟨(C1_decode_edges_characterization 0x81 0x81).1,
   (C1_decode_edges_characterization 0x00 0x81).2.2.2.2,
   (C1_decode_edges_characterization 0x00 0x81).2.2.2.1 BIT_MUTE (by decide) (by decide)⟩

/-- Claim C2: before a previous state exists, the first byte read produces
no edges, no dispatch and no notification — only the INIT log entry — and
it becomes the stored previous state for the rest of the loop. -/
theorem C2_first_read_baseline (KC : String → Option Nat) (bindings : Bindings)
    (b : Nat) (rest : List ReadResult) :
    cycle KC bindings none b
      = { prev := some b, events := [LoopEvent.logInit b], err := none }
    ∧ runLoop KC bindings none (ReadResult.bytes b :: rest)
      = { prev := (runLoop KC bindings (some b) rest).prev,
          events := LoopEvent.logInit b :: (runLoop KC bindings (some b) rest).events,
          err := (runLoop KC bindings (some b) rest).err } :=
  ⟨rfl, rfl⟩

/-- Claim C3 counterexample: do_action is not exception-safe — on a KeyCombo
with an unknown key name it raises (KeyError, modelled as Except.error), and
in the cycle that dispatches it the exception escapes and the stored
previous mask is NOT updated, contradicting the claim that failures are
caught, the loop continues and tracking is unaffected. -/
theorem C3_counterexample :
    do_action (fun _ => Option.none) specBadKey = Except.error "KEY_BOGUS"
    ∧ (cycle (fun _ => Option.none) [("mute_on", specBadKey)] (some 0x00) 0x80).err
        = some "KEY_BOGUS"
    ∧ (cycle (fun _ => Option.none) [("mute_on", specBadKey)] (some 0x00) 0x80).prev
        = some 0x00 := ⟨rfl, rfl, rfl⟩

/-- Claim C3 (amended): do_action does not catch failures; an exception such
as the KeyError for an unknown key name escapes the per-iteration handler
(which catches only BlockingIOError), terminates the poll loop without
updating the stored previous mask for that cycle, and the process exits
abnormally — though the finally block still closes both handles. -/
theorem C3_amended_dispatch_propagates (env : Env) (bindings : Bindings) (e : String)
    (hov : env.override ≠ "") (hload : load_map env.mapfile = Except.ok bindings)
    (herr : (runLoop env.KC bindings none env.reads).err = some e) :
    (main_model env).exit = ExitOutcome.uncaught e
    ∧ (main_model env).uiClosed = true ∧ (main_model env).fdClosed = true
    ∧ (∀ (KC : String → Option Nat) (bs : Bindings) (q curr : Nat),
        (cycle KC bs (some q) curr).err.isSome = true →
        (cycle KC bs (some q) curr).prev = some q) := by
  obtain ⟨-, -, hc1, hc2, -, -, hexit⟩ := main_model_run env bindings hov hload
  rw [herr] at hexit
  refine ⟨hexit, hc1, hc2, ?_⟩
  intro KC bs q curr hsome
  cases hp : (processEdges KC bs curr (decode_edges q curr)).2 with
  | none =>
    by_cases hqe : curr = q <;> simp [cycle, hqe, hp] at hsome
  | some e2 =>
    by_cases hqe : curr = q
    · simp [cycle, hqe] at hsome
    · simp [cycle, hqe, hp]

/-- Claim C3 witness: the amended claim at a concrete run in which the
second read fires the bad binding. -/
theorem C3_witness :
    (main_model envBadKey).exit = ExitOutcome.uncaught "KEY_BOGUS"
    ∧ (main_model envBadKey).uiClosed = true
    ∧ (main_model envBadKey).fdClosed = true := by
  have h := C3_amended_dispatch_propagates envBadKey [("mute_on", specBadKey)] "KEY_BOGUS"
      (by decide) rfl rfl
  exact ⟨h.1, h.2.1, h.2.2.1⟩

/-- Claim C4 counterexample: a binding of unknown kind is not a fatal
startup error — the daemon enters the poll loop, do_action silently does
nothing when the edge fires, and the run still ends cleanly with exit 0. -/
theorem C4_counterexample :
    (main_model envWeird).polled = true
    ∧ (main_model envWeird).exit = ExitOutcome.exited 0
    ∧ do_action (fun _ => Option.none) specWeird = Except.ok ActionEffect.noAction
    ∧ (main_model envWeird).events
        = [LoopEvent.logInit 0x00, LoopEvent.notify "mute_on" "on" 0x80,
           LoopEvent.action ActionEffect.noAction] := ⟨rfl, rfl, rfl, rfl⟩

/-- Claim C4 (amended): a loaded mapping without the top-level bindings key
is a fatal pre-poll error (the ValueError propagates and the loop is never
entered); but an ActionSpec of unknown kind is not validated at startup and
is not fatal — do_action silently performs no action for it. -/
theorem C4_amended_config_validation :
    (∀ env : Env, env.override ≠ "" → env.mapfile = MapFile.noBindingsKey →
        (main_model env).polled = false
        ∧ (main_model env).exit
            = ExitOutcome.uncaught "Top-level bindings missing in mapping file.")
    ∧ (∀ (KC : String → Option Nat) (spec : ActionSpec) (t : String),
        spec.type? = some t → t ≠ "key" → t ≠ "shell" →
        do_action KC spec = Except.ok ActionEffect.noAction) := by
  constructor
  · intro env hov hmap
    have hbne : (env.override != "") = true := bne_iff_ne.mpr hov
    simp [main_model, resolve_node, hbne, hmap, load_map]
  · intro KC spec t ht hk hs
    simp [do_action, ht, hk, hs]

/-- Claim C4 witness: both halves of the amended claim at concrete inputs. -/
theorem C4_witness :
    ((main_model envNoKey).polled = false
      ∧ (main_model envNoKey).exit
          = ExitOutcome.uncaught "Top-level bindings missing in mapping file.")
    ∧ do_action (fun _ => Option.none) specWeird = Except.ok ActionEffect.noAction :=
  ⟨C4_amended_config_validation.1 envNoKey (by decide) rfl,
   C4_amended_config_validation.2 (fun _ => Option.none) specWeird "frobnicate" rfl
     (by decide) (by decide)⟩

/-- Claim C5 (code bug): when the device must be discovered (override
falsy), line 209 evaluates the unbound identifier `true` and the NameError
aborts the process with the interpreter's code 1 — the same exit code as an
invalid mapping file — so "device not found" never receives the distinct
code 3 that the dead sys.exit(3) intends; only clean interrupt (0) is
distinct. -/
theorem C5_exit_code_collision :
    (main_model envNoOverride).exit = ExitOutcome.uncaught NameErrorTrue
    ∧ exitCode (main_model envNoOverride).exit = 1
    ∧ exitCode (main_model envBadMap5).exit = 1
    ∧ exitCode (main_model envInterrupt).exit = 0 := ⟨rfl, rfl, rfl, rfl⟩

/-- Claim C6: an edge whose event name has no entry in the binding table
dispatches no action, is not an error, and still contributes exactly its
one notification; the loop then continues with the remaining edges. -/
theorem C6_unbound_edge (KC : String → Option Nat) (bindings : Bindings) (curr : Nat)
    (ev_name : String) (bit : Nat) (edg : String) (rest : List (String × Nat × String))
    (h : bindings.lookup ev_name = none) :
    processEdges KC bindings curr ((ev_name, bit, edg) :: rest)
      = (LoopEvent.notify ev_name edg curr :: (processEdges KC bindings curr rest).1,
         (processEdges KC bindings curr rest).2) := by
  simp [processEdges, h]

/-- Claim C6 witness: a concrete unbound edge yields exactly one
notification, no action and no error. -/
theorem C6_witness :
    processEdges (fun _ => Option.none) [("mute_on", specCtrlM)] 0x81
        [("all_on", BIT_ALL, "on")]
      = ([LoopEvent.notify "all_on" "on" 0x81], Option.none) := by
  rw [C6_unbound_edge (fun _ => Option.none) [("mute_on", specCtrlM)] 0x81
        "all_on" BIT_ALL "on" [] rfl]
  rfl

/-- Claim C7: for a KeyCombo whose keys are all known, press_combo emits
presses in listed order, then releases in exact reverse order, then one
synchronize call, in that overall order. -/
theorem C7_press_combo_order (KC : String → Option Nat) (keys : List String)
    (h : ∀ k ∈ keys, (KC k).isSome) :
    press_combo KC keys
      = Except.ok (keys.map (fun k => UIEvent.write ((KC k).getD 0) 1)
          ++ keys.reverse.map (fun k => UIEvent.write ((KC k).getD 0) 0)
          ++ [UIEvent.syn]) := by
  have h2 : ∀ k ∈ keys.reverse, (KC k).isSome := fun k hk => h k (List.mem_reverse.mp hk)
  simp [press_combo, writeKeys_ok KC 1 keys h, writeKeys_ok KC 0 keys.reverse h2]

/-- Claim C7 witness: the ctrl+M combo on a concrete key table. -/
theorem C7_witness :
    press_combo KCdemo ["KEY_LEFTCTRL", "KEY_M"]
      = Except.ok [UIEvent.write 29 1, UIEvent.write 50 1,
                   UIEvent.write 50 0, UIEvent.write 29 0, UIEvent.syn] := by
  rw [C7_press_combo_order KCdemo ["KEY_LEFTCTRL", "KEY_M"] (by decide)]
  rfl

/-- Claim C8 counterexample: when load_map fails, both the uinput handle
and the hidraw fd have been opened but the process terminates without
closing either — the failure happens before the try/finally is entered. -/
theorem C8_counterexample :
    (main_model envLeak).uiOpened = true ∧ (main_model envLeak).fdOpened = true
    ∧ (main_model envLeak).uiClosed = false ∧ (main_model envLeak).fdClosed = false :=
  ⟨rfl, rfl, rfl, rfl⟩

/-- Claim C8 (amended): every exit that goes through the poll loop —
interrupt at any point and escaping action errors — releases both handles
via the finally block; but the bindings-load failure occurs after both are
opened and outside the try/finally, and on that error exit neither handle
is released before termination. -/
theorem C8_amended_release :
    (∀ (env : Env) (bindings : Bindings), env.override ≠ "" →
        load_map env.mapfile = Except.ok bindings →
        (main_model env).uiClosed = true ∧ (main_model env).fdClosed = true)
    ∧ (∀ env : Env, env.override ≠ "" → env.mapfile = MapFile.noBindingsKey →
        (main_model env).uiOpened = true ∧ (main_model env).fdOpened = true
        ∧ (main_model env).uiClosed = false ∧ (main_model env).fdClosed = false) := by
  constructor
  · intro env bindings hov hload
    obtain ⟨-, -, hc1, hc2, -, -, -⟩ := main_model_run env bindings hov hload
    exact ⟨hc1, hc2⟩
  · intro env hov hmap
    have hbne : (env.override != "") = true := bne_iff_ne.mpr hov
    simp [main_model, resolve_node, hbne, hmap, load_map]

/-- Claim C8 witness: both halves of the amended claim at concrete runs. -/
theorem C8_witness :
    ((main_model envClean).uiClosed = true ∧ (main_model envClean).fdClosed = true)
    ∧ ((main_model envLeak).uiOpened = true ∧ (main_model envLeak).fdOpened = true
       ∧ (main_model envLeak).uiClosed = false ∧ (main_model envLeak).fdClosed = false) :=
  ⟨C8_amended_release.1 envClean [] (by decide) rfl,
   C8_amended_release.2 envLeak (by decide) rfl⟩

/-- Claim C9: the two edge decoders are only cosmetically different — for
every pair of masks, the (event name, direction) pairs of decode_edges are
a permutation of decode_edges0 minus its final aggregate mask entry, which
is always the trailing "mask_xx"/"state" element. -/
theorem C9_decode_variants_agree (p c : Nat) :
    ((decode_edges p c).map (fun e => (e.1, e.2.2))).Perm ((decode_edges0 p c).dropLast)
    ∧ (decode_edges0 p c).getLast? = some ("mask_" ++ pyhex2 c, "state") := by
  constructor
  · have h1 : (decode_edges p c).map (fun e => (e.1, e.2.2))
        = (PRINT_ORDER.filter (fun bit => (p ^^^ c) &&& bit != 0)).map
            (fun bit => (BIT_NAMES bit ++ "_" ++ (if c &&& bit != 0 then "on" else "off"),
                         (if c &&& bit != 0 then "on" else "off"))) := by
      rw [decode_edges, List.map_map]
      exact List.map_congr_left (fun a _ => rfl)
    have h2 : (decode_edges0 p c).dropLast
        = (BIT_NAMES_LIST.filter (fun q => (p ^^^ c) &&& q.1 != 0)).map
            (fun q => (q.2 ++ "_" ++ (if c &&& q.1 != 0 then "on" else "off"),
                       (if c &&& q.1 != 0 then "on" else "off"))) := by
      rw [decode_edges0]
      exact List.dropLast_concat
    have h3 : (BIT_NAMES_LIST.filter (fun q => (p ^^^ c) &&& q.1 != 0)).map
            (fun q => (q.2 ++ "_" ++ (if c &&& q.1 != 0 then "on" else "off"),
                       (if c &&& q.1 != 0 then "on" else "off")))
        = ((BIT_NAMES_LIST.map Prod.fst).filter (fun bit => (p ^^^ c) &&& bit != 0)).map
            (fun bit => (BIT_NAMES bit ++ "_" ++ (if c &&& bit != 0 then "on" else "off"),
                         (if c &&& bit != 0 then "on" else "off"))) := by
      rw [List.filter_map, List.map_map]
      apply List.map_congr_left
      intro q hq
      have hq2 := List.mem_of_mem_filter hq
      fin_cases hq2 <;> rfl
    rw [h1, h2, h3]
    exact List.Perm.map _ (List.Perm.filter _ (by decide))
  · rw [decode_edges0]
    exact List.getLast?_concat _

/-- Claim C10: an ActionSpec without a type field is treated as a KeyCombo
(the tag defaults to "key") and do_action attempts key injection from its
keys list rather than rejecting it or doing nothing. -/
theorem C10_missing_type_defaults_to_key (KC : String → Option Nat)
    (ks : List String) (c : Option String) :
    do_action KC { type? := none, keys := some ks, cmd := c }
      = (press_combo KC ks).map ActionEffect.keyEvents := rfl

end GV
